import Mathlib

/-!
Shallow embedding of the pg_auto_failover keeper CLI commands found in
src/bin/pg_autoctl/cli_do_fsm.c and src/bin/pg_autoctl/cli_do_monitor.c.

Each CLI command is embedded as a pure function from an environment (the
outcomes of its external collaborators: configuration reading, the local
Postgres probe, the monitor, the state store) and the durable on-disk
KeeperState to a command result: the exit class, the final durable state,
an event trace (probe calls, monitor calls, disk writes, FSM steps) and
what the command printed.

Callees that live outside the two source files under src/ (state.c,
keeper.c, monitor.c, fsm.c) are modelled from the spec; each such
definition carries a doc comment starting with "Modelled from the spec:".
The control flow of the commands themselves is translated line by line
from the two C files.
-/

/-- NodeState enumerates the keeper roles. Modelled from the spec: the
NodeState enum lives in state.h which is not under src/; the spec lists
NO_STATE, INIT_STATE, SINGLE_STATE, WAIT_STANDBY_STATE plus additional
primary/secondary/catching-up/draining/demoted/maintenance roles, with
NO_STATE the uninitialized sentinel. -/
inductive NodeState
  | NO_STATE
  | INIT_STATE
  | SINGLE_STATE
  | WAIT_PRIMARY_STATE
  | PRIMARY_STATE
  | WAIT_STANDBY_STATE
  | DEMOTED_STATE
  | DEMOTE_TIMEOUT_STATE
  | DRAINING_STATE
  | SECONDARY_STATE
  | CATCHINGUP_STATE
  | MAINTENANCE_STATE
deriving DecidableEq, Fintype, Repr

/-- Modelled from the spec: NodeStateToString lives in state.c, not under
src/. It renders each role as its operator-visible label. -/
def NodeStateToString : NodeState → String
  | NodeState.NO_STATE => "unknown"
  | NodeState.INIT_STATE => "init"
  | NodeState.SINGLE_STATE => "single"
  | NodeState.WAIT_PRIMARY_STATE => "wait_primary"
  | NodeState.PRIMARY_STATE => "primary"
  | NodeState.WAIT_STANDBY_STATE => "wait_standby"
  | NodeState.DEMOTED_STATE => "demoted"
  | NodeState.DEMOTE_TIMEOUT_STATE => "demote_timeout"
  | NodeState.DRAINING_STATE => "draining"
  | NodeState.SECONDARY_STATE => "secondary"
  | NodeState.CATCHINGUP_STATE => "catchingup"
  | NodeState.MAINTENANCE_STATE => "maintenance"

/-- Modelled from the spec: NodeStateFromString lives in state.c, not under
src/. A string that names no known role yields NO_STATE, the "unset"
sentinel; the caller in keeper_cli_monitor_register_node relies on this
(its switch treats NO_STATE as the parse-failure case, with the comment
that errors have already been logged). -/
def NodeStateFromString (s : String) : NodeState :=
  if s = "init" then NodeState.INIT_STATE
  else if s = "single" then NodeState.SINGLE_STATE
  else if s = "wait_primary" then NodeState.WAIT_PRIMARY_STATE
  else if s = "primary" then NodeState.PRIMARY_STATE
  else if s = "wait_standby" then NodeState.WAIT_STANDBY_STATE
  else if s = "demoted" then NodeState.DEMOTED_STATE
  else if s = "demote_timeout" then NodeState.DEMOTE_TIMEOUT_STATE
  else if s = "draining" then NodeState.DRAINING_STATE
  else if s = "secondary" then NodeState.SECONDARY_STATE
  else if s = "catchingup" then NodeState.CATCHINGUP_STATE
  else if s = "maintenance" then NodeState.MAINTENANCE_STATE
  else NodeState.NO_STATE

/-- Local Postgres facts as reported to the monitor: the pgIsRunning flag,
the current LSN (the C code passes keeper.postgres.currentLSN; the comment
above the call names -1 as the degraded default) and the replication sync
state string (degraded default: empty). -/
structure PostgresFacts where
  pgIsRunning : Bool
  currentLSN : Int
  pgsrSyncState : String
deriving DecidableEq, Repr

/-- Conservative defaults used when the local instance probe fails, per the
comment at cli_do_monitor.c lines 569-573: continue with a default WAL
position of -1 and an empty string for pgsrSyncState (and pg not running). -/
def defaultPostgresFacts : PostgresFacts :=
  ⟨false, -1, ""⟩

/-- Refreshing the local facts from a probe outcome: a successful probe
yields its facts, a failed probe degrades to the conservative defaults. -/
def refreshFacts : Option PostgresFacts → PostgresFacts
  | some f => f
  | none => defaultPostgresFacts

/-- KeeperStateData, the durable record: current and assigned role plus the
node and group identifiers handed out by the monitor at registration. -/
structure KeeperState where
  current_role : NodeState
  assigned_role : NodeState
  current_node_id : Int
  current_group : Int
deriving DecidableEq, Repr

/-- KeeperStateData of C is declared with an all-zero initializer; role 0 is
NO_STATE and the identifiers are 0. -/
def zeroKeeperState : KeeperState :=
  ⟨NodeState.NO_STATE, NodeState.NO_STATE, 0, 0⟩

/-- MonitorAssignedState: the monitor's reply to the nodeActive exchange,
carrying the node id, group id and the newly assigned role. -/
structure MonitorAssignedState where
  nodeId : Int
  groupId : Int
  state : NodeState
deriving DecidableEq, Repr

/-- NodeAddress: a peer's host and port as returned by the monitor. -/
structure NodeAddress where
  host : String
  port : Int
deriving DecidableEq, Repr

/-- Exit classes of the CLI commands. The numeric values live in defaults.h
which is not under src/; distinct constructors mirror the distinct
EXIT_CODE_* macros used by the two C files (ok stands for a normal return,
exit code 0). -/
inductive ExitCode
  | ok
  | badArgs
  | badConfig
  | badState
  | pgsql
  | pgctl
  | monitor
  | internalError
deriving DecidableEq, Repr

/-- Observable events of one command invocation, in program order: a local
facts refresh, a nodeActive exchange with the monitor (recording the
reported role and facts), a registration call, one FSM transition, and a
durable write of the keeper state. -/
inductive Event
  | probeRefresh (facts : PostgresFacts)
  | nodeActiveCall (currentRole : NodeState) (facts : PostgresFacts)
  | registerCall (initialRole : NodeState)
  | fsmStep (fromRole : NodeState) (toRole : NodeState)
  | diskWrite (s : KeeperState)
deriving DecidableEq, Repr

/-- Environment of a command invocation: the outcomes of every external
collaborator the command calls into. Quantifying theorems over Env covers
all combinations of collaborator success and failure. -/
structure Env where
  configReadOk : Bool
  monitorDisabled : Bool
  monitorInitOk : Bool
  keeperInitOk : Bool
  createFileOk : Bool
  probe : Option PostgresFacts
  nodeActiveReply : Option MonitorAssignedState
  registerReply : Option MonitorAssignedState
  getPrimaryReply : Option NodeAddress
  updateStateOk : Bool
  storeStateOk : Bool
  jsonOk : Bool
  populatedState : KeeperState
deriving DecidableEq, Repr

/-- Result of one CLI command invocation: the exit class, the final durable
state (of type σ: KeeperState when the command requires an existing state
file, Option KeeperState when it may create one), the event trace, and the
printed output relevant to the claims (the keeper state record printed by
print_keeper_state or as JSON, the old/new role pair printed by fsm step,
and the assigned-state line printed by the monitor commands). -/
structure CmdResult (σ : Type) where
  exit : ExitCode
  disk : σ
  events : List Event
  printedState : Option KeeperState
  printedTransition : Option (String × String)
  printedAssigned : Option MonitorAssignedState
deriving DecidableEq, Repr

/-- Result of the get-primary command, which touches no durable state. -/
structure GetPrimaryResult where
  exit : ExitCode
  printedNode : Option NodeAddress
deriving DecidableEq, Repr

/-- Embedding of keeper_cli_monitor_node_active (cli_do_monitor.c lines
541-610): read config, keeper_init, refresh the local Postgres facts
ignoring errors, call monitor_node_active with the refreshed facts, exit
EXIT_CODE_PGSQL when the monitor call fails, otherwise apply the returned
assigned state via keeper_update_state - whose failure is only logged, the
command still prints the assigned state and returns normally. -/
def keeper_cli_monitor_node_active (env : Env) (disk : KeeperState) :
    CmdResult KeeperState :=
  if !env.configReadOk then
    ⟨ExitCode.badConfig, disk, [], none, none, none⟩
  else if !env.keeperInitOk then
    ⟨ExitCode.badConfig, disk, [], none, none, none⟩
  else
    let facts := refreshFacts env.probe
    let evs := [Event.probeRefresh facts,
                Event.nodeActiveCall disk.current_role facts]
    match env.nodeActiveReply with
    | none => ⟨ExitCode.pgsql, disk, evs, none, none, none⟩
    | some a =>
      if env.updateStateOk then
        let s1 : KeeperState :=
          ⟨disk.current_role, a.state, a.nodeId, a.groupId⟩
        ⟨ExitCode.ok, s1, evs ++ [Event.diskWrite s1], none, none, some a⟩
      else
        ⟨ExitCode.ok, disk, evs, none, none, some a⟩

/-- Checks that every nodeActiveCall in a trace is preceded by a
probeRefresh and reports exactly the facts obtained by the most recent
preceding refresh; the accumulator holds the facts of that refresh. -/
def reportsFreshFacts : List Event → Option PostgresFacts → Bool
  | [], _ => true
  | Event.probeRefresh f :: rest, _ => reportsFreshFacts rest (some f)
  | Event.nodeActiveCall _ f :: rest, some g =>
      decide (f = g) && reportsFreshFacts rest (some g)
  | Event.nodeActiveCall _ _ :: _, none => false
  | _ :: rest, acc => reportsFreshFacts rest acc

/-- Modelled from the spec: the FSM transition table lives in fsm.c, not
under src/. Each entry is (currentRole, assignedRole, newCurrentRole): the
role concretely achieved by running the bound action, which may be an
intermediate role on partial progress - the spec names moving from
WAIT_STANDBY_STATE toward SECONDARY_STATE via CATCHINGUP_STATE. No entry
has NO_STATE on either side, since NO_STATE is never a valid assigned or
current role once initialization succeeds. Action preconditions against
local facts are not modelled; no claim depends on them. -/
def fsm_transitions : List (NodeState × NodeState × NodeState) :=
  [(NodeState.INIT_STATE, NodeState.SINGLE_STATE, NodeState.SINGLE_STATE),
   (NodeState.INIT_STATE, NodeState.WAIT_STANDBY_STATE,
    NodeState.WAIT_STANDBY_STATE),
   (NodeState.SINGLE_STATE, NodeState.WAIT_PRIMARY_STATE,
    NodeState.WAIT_PRIMARY_STATE),
   (NodeState.SINGLE_STATE, NodeState.WAIT_STANDBY_STATE,
    NodeState.WAIT_STANDBY_STATE),
   (NodeState.WAIT_PRIMARY_STATE, NodeState.PRIMARY_STATE,
    NodeState.PRIMARY_STATE),
   (NodeState.WAIT_STANDBY_STATE, NodeState.CATCHINGUP_STATE,
    NodeState.CATCHINGUP_STATE),
   (NodeState.WAIT_STANDBY_STATE, NodeState.SECONDARY_STATE,
    NodeState.CATCHINGUP_STATE),
   (NodeState.CATCHINGUP_STATE, NodeState.SECONDARY_STATE,
    NodeState.SECONDARY_STATE),
   (NodeState.SECONDARY_STATE, NodeState.PRIMARY_STATE,
    NodeState.PRIMARY_STATE),
   (NodeState.SECONDARY_STATE, NodeState.MAINTENANCE_STATE,
    NodeState.MAINTENANCE_STATE),
   (NodeState.MAINTENANCE_STATE, NodeState.CATCHINGUP_STATE,
    NodeState.CATCHINGUP_STATE),
   (NodeState.PRIMARY_STATE, NodeState.DRAINING_STATE,
    NodeState.DRAINING_STATE),
   (NodeState.PRIMARY_STATE, NodeState.DEMOTED_STATE,
    NodeState.DRAINING_STATE),
   (NodeState.DRAINING_STATE, NodeState.DEMOTED_STATE,
    NodeState.DEMOTED_STATE),
   (NodeState.DEMOTED_STATE, NodeState.CATCHINGUP_STATE,
    NodeState.CATCHINGUP_STATE)]

/-- Looks up the transition edge bound to a (currentRole, assignedRole)
pair; none means NoTransitionDefined. -/
def lookupEdge (cur goal : NodeState) : Option NodeState :=
  (fsm_transitions.find?
      (fun e => decide (e.1 = cur) && decide (e.2.1 = goal))).map
    (fun e => e.2.2)

/-- Modelled from the spec: keeper_fsm_reach_assigned_state lives in
keeper.c, not under src/. It drives repeated step calls until currentRole
equals assignedRole or no further edge exists, persisting each
intermediate state; it returns failure when it cannot progress. The event
list records the steps and disk writes performed before success or
failure; fuel bounds the recursion (the CLI passes the number of roles,
which exceeds every simple path in the table). -/
def keeper_fsm_reach_assigned_state :
    Nat → KeeperState → Option KeeperState × List Event
  | 0, _ => (none, [])
  | Nat.succ fuel, s =>
    if s.current_role = s.assigned_role then (some s, [])
    else
      match lookupEdge s.current_role s.assigned_role with
      | none => (none, [])
      | some next =>
        let s2 : KeeperState :=
          ⟨next, s.assigned_role, s.current_node_id, s.current_group⟩
        let r := keeper_fsm_reach_assigned_state fuel s2
        (r.1, Event.fsmStep s.current_role next :: Event.diskWrite s2 :: r.2)

/-- Returns the last durably written state of a trace, or the given state
when the trace holds no write. -/
def lastWrite (d : KeeperState) : List Event → KeeperState
  | [] => d
  | Event.diskWrite s :: rest => lastWrite s rest
  | _ :: rest => lastWrite d rest

/-- Modelled from the spec: keeper_fsm_step lives in keeper.c, not under
src/. Per the comment above keeper_cli_fsm_step in cli_do_fsm.c it gets
the goal state from the monitor, makes the necessary transition, and
reports back: refresh the local facts, call nodeActive, persist the
returned assignment strictly before executing the matching transition,
run at most one transition edge, persist the achieved role. Failure
returns none together with the events performed up to the failure. -/
def keeper_fsm_step_model (env : Env) (s : KeeperState) :
    Option KeeperState × List Event :=
  let facts := refreshFacts env.probe
  let evs0 := [Event.probeRefresh facts,
               Event.nodeActiveCall s.current_role facts]
  match env.nodeActiveReply with
  | none => (none, evs0)
  | some a =>
    let s1 : KeeperState := ⟨s.current_role, a.state, a.nodeId, a.groupId⟩
    let evs1 := evs0 ++ [Event.diskWrite s1]
    if s1.current_role = s1.assigned_role then (some s1, evs1)
    else
      match lookupEdge s1.current_role s1.assigned_role with
      | none => (none, evs1)
      | some next =>
        let s2 : KeeperState :=
          ⟨next, s1.assigned_role, s1.current_node_id, s1.current_group⟩
        (some s2,
         evs1 ++ [Event.fsmStep s1.current_role next, Event.diskWrite s2])

/-- Embedding of keeper_cli_fsm_state (cli_do_fsm.c lines 153-198): read
config, keeper_init, refresh the Postgres state - here a probe failure is
fatal (log_fatal and EXIT_CODE_BAD_STATE) - then store the state, and
print it as JSON (serialization failure is EXIT_CODE_INTERNAL_ERROR).
keeper_update_pg_state refreshes the postgres side only; the roles of the
stored record are unchanged. -/
def keeper_cli_fsm_state (env : Env) (disk : KeeperState) :
    CmdResult KeeperState :=
  if !env.configReadOk then
    ⟨ExitCode.badConfig, disk, [], none, none, none⟩
  else if !env.keeperInitOk then
    ⟨ExitCode.badConfig, disk, [], none, none, none⟩
  else
    match env.probe with
    | none => ⟨ExitCode.badState, disk, [], none, none, none⟩
    | some facts =>
      if !env.storeStateOk then
        ⟨ExitCode.badState, disk, [Event.probeRefresh facts], none, none,
         none⟩
      else if !env.jsonOk then
        ⟨ExitCode.internalError, disk,
         [Event.probeRefresh facts, Event.diskWrite disk], none, none, none⟩
      else
        ⟨ExitCode.ok, disk,
         [Event.probeRefresh facts, Event.diskWrite disk], some disk, none,
         none⟩

/-- Embedding of keeper_cli_fsm_init (cli_do_fsm.c lines 99-146): read
config, keeper_state_create_file (modelled from the spec: fails when a
state file already exists, to prevent clobbering another identity),
keeper_init, keeper_update_pg_state - a probe failure is fatal here -
keeper_store_state of the populated keeper state, and finally
print_keeper_state of the local keeperState variable, which was
zero-initialized and never touched: the command prints the zero record,
not the state it wrote to disk. env.populatedState stands for keeper.state
as populated by keeper_init and keeper_update_pg_state. -/
def keeper_cli_fsm_init (env : Env) (disk : Option KeeperState) :
    CmdResult (Option KeeperState) :=
  if !env.configReadOk then
    ⟨ExitCode.badConfig, disk, [], none, none, none⟩
  else if disk.isSome || !env.createFileOk then
    ⟨ExitCode.badState, disk, [], none, none, none⟩
  else if !env.keeperInitOk then
    ⟨ExitCode.badState, some zeroKeeperState,
     [Event.diskWrite zeroKeeperState], none, none, none⟩
  else
    match env.probe with
    | none =>
      ⟨ExitCode.badState, some zeroKeeperState,
       [Event.diskWrite zeroKeeperState], none, none, none⟩
    | some facts =>
      if !env.storeStateOk then
        ⟨ExitCode.badState, some zeroKeeperState,
         [Event.diskWrite zeroKeeperState, Event.probeRefresh facts], none,
         none, none⟩
      else
        ⟨ExitCode.ok, some env.populatedState,
         [Event.diskWrite zeroKeeperState, Event.probeRefresh facts,
          Event.diskWrite env.populatedState],
         some zeroKeeperState, none, none⟩

/-- Shared tail of keeper_cli_fsm_assign after argument parsing: the
keeper_init, role assignment, reach, store and print sequence of
cli_do_fsm.c lines 302-330. -/
def keeper_cli_fsm_assign_body (env : Env) (goal : NodeState)
    (disk : KeeperState) : CmdResult KeeperState :=
  if !env.keeperInitOk then
    ⟨ExitCode.badConfig, disk, [], none, none, none⟩
  else
    let s : KeeperState :=
      ⟨disk.current_role, goal, disk.current_node_id, disk.current_group⟩
    let r := keeper_fsm_reach_assigned_state 12 s
    match r.1 with
    | none => ⟨ExitCode.badState, lastWrite disk r.2, r.2, none, none, none⟩
    | some sf =>
      if !env.storeStateOk then
        ⟨ExitCode.badState, lastWrite disk r.2, r.2, none, none, none⟩
      else if !env.jsonOk then
        ⟨ExitCode.internalError, sf, r.2 ++ [Event.diskWrite sf], none,
         none, none⟩
      else
        ⟨ExitCode.ok, sf, r.2 ++ [Event.diskWrite sf], some sf, none, none⟩

/-- Embedding of keeper_cli_fsm_assign (cli_do_fsm.c lines 248-331): read
config; parse the arguments - one argument is the goal role string, three
add the other node's host and port (a port that fails to parse exits
EXIT_CODE_INTERNAL_ERROR), any other count exits EXIT_CODE_BAD_ARGS;
keeper_init; set keeper.state.assigned_role to the parsed goal - with no
validation, an unknown string parsed to NO_STATE flows straight into the
FSM; keeper_fsm_reach_assigned_state, whose failure exits
EXIT_CODE_BAD_STATE; keeper_store_state; JSON serialization. -/
def keeper_cli_fsm_assign (env : Env) (args : List String)
    (disk : KeeperState) : CmdResult KeeperState :=
  if !env.configReadOk then
    ⟨ExitCode.badConfig, disk, [], none, none, none⟩
  else
    match args with
    | [goalStr] => keeper_cli_fsm_assign_body env (NodeStateFromString goalStr) disk
    | [goalStr, _, portStr] =>
      if (portStr.toInt?).isNone then
        ⟨ExitCode.internalError, disk, [], none, none, none⟩
      else
        keeper_cli_fsm_assign_body env (NodeStateFromString goalStr) disk
    | _ => ⟨ExitCode.badArgs, disk, [], none, none, none⟩

/-- Embedding of keeper_cli_fsm_step (cli_do_fsm.c lines 339-386): read
config; when the monitor is disabled the command refuses to run
(log_fatal, EXIT_CODE_BAD_CONFIG, hinting at fsm assign instead);
keeper_init failure exits EXIT_CODE_PGCTL; record the old role from the
state read off disk; keeper_fsm_step, whose failure exits
EXIT_CODE_BAD_STATE; print the old role and then
NodeStateToString(keeper.state.assigned_role) as the new role. -/
def keeper_cli_fsm_step (env : Env) (disk : KeeperState) :
    CmdResult KeeperState :=
  if !env.configReadOk then
    ⟨ExitCode.badConfig, disk, [], none, none, none⟩
  else if env.monitorDisabled then
    ⟨ExitCode.badConfig, disk, [], none, none, none⟩
  else if !env.keeperInitOk then
    ⟨ExitCode.pgctl, disk, [], none, none, none⟩
  else
    let r := keeper_fsm_step_model env disk
    match r.1 with
    | none => ⟨ExitCode.badState, lastWrite disk r.2, r.2, none, none, none⟩
    | some s2 =>
      ⟨ExitCode.ok, s2, r.2, none,
       some (NodeStateToString disk.current_role,
             NodeStateToString s2.assigned_role), none⟩

/-- Embedding of keeper_cli_monitor_register_node (cli_do_monitor.c lines
443-534): exactly one argument is required (EXIT_CODE_BAD_ARGS otherwise);
the argument is parsed with NodeStateFromString and NO_STATE - the parse
failure sentinel - exits EXIT_CODE_BAD_ARGS before the configuration is
read, before the monitor is contacted and before any durable state is
created; then config read, then keeper_register_and_init (modelled from
the spec: performs the monitor registration and persists the returned
identity and role, leaving no durable state behind on failure, which exits
EXIT_CODE_BAD_STATE), then print the registered identity and assigned
role. -/
def keeper_cli_monitor_register_node (env : Env) (args : List String)
    (disk : Option KeeperState) : CmdResult (Option KeeperState) :=
  match args with
  | [stateStr] =>
    match NodeStateFromString stateStr with
    | NodeState.NO_STATE =>
      ⟨ExitCode.badArgs, disk, [], none, none, none⟩
    | initialState =>
      if !env.configReadOk then
        ⟨ExitCode.badConfig, disk, [], none, none, none⟩
      else
        match env.registerReply with
        | none =>
          ⟨ExitCode.badState, disk, [Event.registerCall initialState],
           none, none, none⟩
        | some a =>
          let s : KeeperState := ⟨initialState, a.state, a.nodeId, a.groupId⟩
          ⟨ExitCode.ok, some s,
           [Event.registerCall initialState, Event.diskWrite s], none, none,
           some a⟩
  | _ => ⟨ExitCode.badArgs, disk, [], none, none, none⟩

/-- Embedding of keeper_cli_monitor_get_primary_node (cli_do_monitor.c
lines 130-171): read config (EXIT_CODE_BAD_CONFIG), monitor_init
(EXIT_CODE_BAD_CONFIG on an invalid URL), monitor_get_primary - whose
failure exits EXIT_CODE_MONITOR - then print the primary node. -/
def keeper_cli_monitor_get_primary_node (env : Env) : GetPrimaryResult :=
  if !env.configReadOk then
    ⟨ExitCode.badConfig, none⟩
  else if !env.monitorInitOk then
    ⟨ExitCode.badConfig, none⟩
  else
    match env.getPrimaryReply with
    | none => ⟨ExitCode.monitor, none⟩
    | some node => ⟨ExitCode.ok, some node⟩

/-- Number of FSM transition steps recorded in a trace. -/
def countFsmSteps (evs : List Event) : Nat :=
  evs.countP (fun e =>
    match e with
    | Event.fsmStep _ _ => true
    | _ => false)

/-- Both roles of a keeper state are valid, that is, neither is the
NO_STATE sentinel. -/
def rolesValid (s : KeeperState) : Prop :=
  s.current_role ≠ NodeState.NO_STATE ∧ s.assigned_role ≠ NodeState.NO_STATE

/-- Concrete all-collaborators-succeed environment used by witnesses and
counterexamples: the probe reports a running instance, the monitor assigns
SECONDARY_STATE on nodeActive and SINGLE_STATE at registration. -/
def envAllOk : Env :=
  ⟨true, false, true, true, true, some ⟨true, 7, "sync"⟩,
   some ⟨1, 0, NodeState.SECONDARY_STATE⟩,
   some ⟨1, 0, NodeState.SINGLE_STATE⟩, some ⟨"db1", 5432⟩, true, true, true,
   ⟨NodeState.INIT_STATE, NodeState.INIT_STATE, 1, 0⟩⟩

/-- Concrete environment whose monitor is unreachable for both the
nodeActive and the get-primary exchanges. -/
def envMonitorFail : Env :=
  ⟨true, false, true, true, true, some ⟨true, 7, "sync"⟩, none,
   some ⟨1, 0, NodeState.SINGLE_STATE⟩, none, true, true, true,
   ⟨NodeState.INIT_STATE, NodeState.INIT_STATE, 1, 0⟩⟩

/-- Concrete environment where applying the assigned state to the keeper
fails while everything else succeeds. -/
def envUpdateFail : Env :=
  ⟨true, false, true, true, true, some ⟨true, 7, "sync"⟩,
   some ⟨1, 0, NodeState.SECONDARY_STATE⟩,
   some ⟨1, 0, NodeState.SINGLE_STATE⟩, some ⟨"db1", 5432⟩, false, true,
   true, ⟨NodeState.INIT_STATE, NodeState.INIT_STATE, 1, 0⟩⟩

/-- Concrete environment whose local instance probe fails. -/
def envProbeFail : Env :=
  ⟨true, false, true, true, true, none,
   some ⟨1, 0, NodeState.SECONDARY_STATE⟩,
   some ⟨1, 0, NodeState.SINGLE_STATE⟩, some ⟨"db1", 5432⟩, true, true,
   true, ⟨NodeState.INIT_STATE, NodeState.INIT_STATE, 1, 0⟩⟩

/-- Concrete environment with the monitor disabled in the configuration. -/
def envMonitorDisabled : Env :=
  ⟨true, true, true, true, true, some ⟨true, 7, "sync"⟩,
   some ⟨1, 0, NodeState.SECONDARY_STATE⟩,
   some ⟨1, 0, NodeState.SINGLE_STATE⟩, some ⟨"db1", 5432⟩, true, true,
   true, ⟨NodeState.INIT_STATE, NodeState.INIT_STATE, 1, 0⟩⟩

/-- Concrete durable state of a registered single node. -/
def diskSingle : KeeperState :=
  ⟨NodeState.SINGLE_STATE, NodeState.SINGLE_STATE, 1, 0⟩

/-- Concrete durable state of a node waiting to become a standby. -/
def diskWaitStandby : KeeperState :=
  ⟨NodeState.WAIT_STANDBY_STATE, NodeState.WAIT_STANDBY_STATE, 1, 0⟩

theorem lookupEdge_goal_no_state (c : NodeState) :
    lookupEdge c NodeState.NO_STATE = none := by
  cases c <;> rfl

theorem lookupEdge_target_ne_no_state :
    ∀ c g t : NodeState, lookupEdge c g = some t →
      t ≠ NodeState.NO_STATE := by decide

theorem nodeStateToString_injective :
    ∀ a b : NodeState, NodeStateToString a = NodeStateToString b →
      a = b := by decide

theorem lastWrite_preserves (P : KeeperState → Prop) :
    ∀ (evs : List Event) (d : KeeperState), P d →
      (∀ w, Event.diskWrite w ∈ evs → P w) → P (lastWrite d evs) := by
  intro evs
  induction evs with
  | nil => intro d hd _; simpa [lastWrite] using hd
  | cons e rest ih =>
    intro d hd hall
    cases e with
    | diskWrite s =>
      exact ih s (hall s (by simp)) (fun w hw => hall w (by simp [hw]))
    | probeRefresh f =>
      exact ih d hd (fun w hw => hall w (List.mem_cons_of_mem _ hw))
    | nodeActiveCall r f =>
      exact ih d hd (fun w hw => hall w (List.mem_cons_of_mem _ hw))
    | registerCall r =>
      exact ih d hd (fun w hw => hall w (List.mem_cons_of_mem _ hw))
    | fsmStep a b =>
      exact ih d hd (fun w hw => hall w (List.mem_cons_of_mem _ hw))

theorem reach_no_state_goal (fuel : Nat) (s : KeeperState)
    (hc : s.current_role ≠ NodeState.NO_STATE)
    (ha : s.assigned_role = NodeState.NO_STATE) :
    keeper_fsm_reach_assigned_state (fuel + 1) s = (none, []) := by
  unfold keeper_fsm_reach_assigned_state
  rw [ha, if_neg hc, lookupEdge_goal_no_state]

theorem reach_preserves_roles (fuel : Nat) :
    ∀ s : KeeperState, rolesValid s →
      (∀ sf, (keeper_fsm_reach_assigned_state fuel s).1 = some sf →
        rolesValid sf) ∧
      (∀ w, Event.diskWrite w ∈ (keeper_fsm_reach_assigned_state fuel s).2 →
        rolesValid w) := by
  induction fuel with
  | zero =>
    intro s _
    constructor
    · intro sf hsf; simp [keeper_fsm_reach_assigned_state] at hsf
    · intro w hw; simp [keeper_fsm_reach_assigned_state] at hw
  | succ n ih =>
    intro s hs
    unfold keeper_fsm_reach_assigned_state
    by_cases heq : s.current_role = s.assigned_role
    · rw [if_pos heq]
      constructor
      · intro sf hsf
        simp only [Option.some.injEq] at hsf
        exact hsf ▸ hs
      · intro w hw; simp at hw
    · rw [if_neg heq]
      cases hl : lookupEdge s.current_role s.assigned_role with
      | none =>
        constructor
        · intro sf hsf; simp at hsf
        · intro w hw; simp at hw
      | some next =>
        have hnext : next ≠ NodeState.NO_STATE :=
          lookupEdge_target_ne_no_state _ _ _ hl
        have hs2 : rolesValid
            ⟨next, s.assigned_role, s.current_node_id, s.current_group⟩ :=
          ⟨hnext, hs.2⟩
        have ihr := ih ⟨next, s.assigned_role, s.current_node_id,
          s.current_group⟩ hs2
        constructor
        · intro sf hsf
          exact ihr.1 sf hsf
        · intro w hw
          simp only [List.mem_cons] at hw
          rcases hw with h1 | h2 | h3
          · exact absurd h1 (by simp)
          · simp only [Event.diskWrite.injEq] at h2
            exact h2 ▸ hs2
          · exact ihr.2 w h3

theorem reach_twelve_no_state_goal (s : KeeperState)
    (hc : s.current_role ≠ NodeState.NO_STATE)
    (ha : s.assigned_role = NodeState.NO_STATE) :
    keeper_fsm_reach_assigned_state 12 s = (none, []) :=
  reach_no_state_goal 11 s hc ha

theorem assign_body_roles_valid (env : Env) (goal : NodeState)
    (dk : KeeperState) (hdk : rolesValid dk) :
    rolesValid (keeper_cli_fsm_assign_body env goal dk).disk := by
  unfold keeper_cli_fsm_assign_body
  by_cases hki : env.keeperInitOk
  · simp only [hki, Bool.not_true, Bool.false_eq_true, if_false]
    by_cases hgoal : goal = NodeState.NO_STATE
    · subst hgoal
      have hreach := reach_twelve_no_state_goal
        ⟨dk.current_role, NodeState.NO_STATE, dk.current_node_id,
         dk.current_group⟩ hdk.1 rfl
      simp [hreach, lastWrite, hdk]
    · have hs : rolesValid
          ⟨dk.current_role, goal, dk.current_node_id, dk.current_group⟩ :=
        ⟨hdk.1, hgoal⟩
      have hp := reach_preserves_roles 12
        ⟨dk.current_role, goal, dk.current_node_id, dk.current_group⟩ hs
      cases hr : (keeper_fsm_reach_assigned_state 12
          ⟨dk.current_role, goal, dk.current_node_id, dk.current_group⟩).1 with
      | none =>
        simp only [hr]
        exact lastWrite_preserves rolesValid _ dk hdk hp.2
      | some sf =>
        have hsf := hp.1 sf hr
        by_cases hss : env.storeStateOk
        · by_cases hj : env.jsonOk
          · simp [hr, hss, hj, hsf]
          · simp [hr, hss, hj, hsf]
        · simp only [hr, hss, Bool.not_false, if_true]
          exact lastWrite_preserves rolesValid _ dk hdk hp.2
  · simp [hki, hdk]

/-- C1: if the monitor call of the node-active exchange fails (monitor
unreachable or the call returns failure), the command aborts and the
durable KeeperState is exactly what it was before the call; no partial
AssignedState is applied. -/
theorem node_active_monitor_failure_no_mutation (env : Env)
    (disk : KeeperState) (h : env.nodeActiveReply = none) :
    (keeper_cli_monitor_node_active env disk).disk = disk ∧
      (keeper_cli_monitor_node_active env disk).exit ≠ ExitCode.ok := by
  obtain ⟨cr, md, mi, ki, cf, pr, na, rr, gp, us, ss, jo, ps⟩ := env
  simp only [Env.nodeActiveReply] at h
  subst h
  cases cr <;> cases ki <;>
    simp [keeper_cli_monitor_node_active]

/-- C1 witness: a concrete invocation with an unreachable monitor leaves
the single-node state untouched and does not succeed. -/
theorem node_active_monitor_failure_no_mutation_witness :
    (keeper_cli_monitor_node_active envMonitorFail diskSingle).disk =
        diskSingle ∧
      (keeper_cli_monitor_node_active envMonitorFail diskSingle).exit ≠
        ExitCode.ok :=
  node_active_monitor_failure_no_mutation envMonitorFail diskSingle rfl

/-- C2: in every execution trace of the node-active command, the local
facts refresh happens strictly before the monitor's nodeActive call, and
the facts reported to the monitor are exactly the ones obtained by that
refresh. -/
theorem node_active_refreshes_facts_before_monitor (env : Env)
    (disk : KeeperState) :
    reportsFreshFacts (keeper_cli_monitor_node_active env disk).events
      none = true := by
  obtain ⟨cr, md, mi, ki, cf, pr, na, rr, gp, us, ss, jo, ps⟩ := env
  cases cr <;> cases ki <;> cases na <;> cases us <;>
    simp [keeper_cli_monitor_node_active, reportsFreshFacts]

/-- C3 counterexample: assigning the unknown goal string BOGUS_STATE with
every collaborator healthy exits with the bad-state class, not the
bad-arguments class the claim requires (the durable state is indeed left
untouched). -/
theorem assign_unknown_goal_cex :
    (keeper_cli_fsm_assign envAllOk ["BOGUS_STATE"] diskSingle).exit =
        ExitCode.badState ∧
      (keeper_cli_fsm_assign envAllOk ["BOGUS_STATE"] diskSingle).exit ≠
        ExitCode.badArgs ∧
      (keeper_cli_fsm_assign envAllOk ["BOGUS_STATE"] diskSingle).disk =
        diskSingle := by
  refine ⟨by decide, by decide, by decide⟩

/-- C3 amended: a goal-role string that names no known role parses to the
NO_STATE sentinel, which reaches the FSM unvalidated; the command fails
without mutating durable state, but with the bad-state exit class - the
bad-arguments class is used only for a wrong argument count. -/
theorem assign_unknown_goal_amended (env : Env) (s : String)
    (dk : KeeperState) (hparse : NodeStateFromString s = NodeState.NO_STATE)
    (hcur : dk.current_role ≠ NodeState.NO_STATE)
    (hcfg : env.configReadOk = true) (hki : env.keeperInitOk = true) :
    (keeper_cli_fsm_assign env [s] dk).exit = ExitCode.badState ∧
      (keeper_cli_fsm_assign env [s] dk).disk = dk := by
  have hreach := reach_twelve_no_state_goal
    ⟨dk.current_role, NodeState.NO_STATE, dk.current_node_id,
     dk.current_group⟩ hcur rfl
  simp [keeper_cli_fsm_assign, keeper_cli_fsm_assign_body, hparse, hcfg,
    hki, hreach, lastWrite]

/-- C3 amended witness: the concrete BOGUS_STATE invocation. -/
theorem assign_unknown_goal_amended_witness :
    (keeper_cli_fsm_assign envAllOk ["BOGUS_STATE"] diskSingle).exit =
        ExitCode.badState ∧
      (keeper_cli_fsm_assign envAllOk ["BOGUS_STATE"] diskSingle).disk =
        diskSingle :=
  assign_unknown_goal_amended envAllOk "BOGUS_STATE" diskSingle
    (by decide) (by decide) rfl rfl

/-- C4 counterexample: with a successful nodeActive exchange whose
assigned state then fails to apply to the keeper, the command still
completes with the success exit class - the apply failure is swallowed
(only logged), contradicting the claim that it is reported as the
operation's outcome. -/
theorem node_active_swallows_update_failure_cex :
    envUpdateFail.updateStateOk = false ∧
      (envUpdateFail.nodeActiveReply).isSome = true ∧
      (keeper_cli_monitor_node_active envUpdateFail diskSingle).exit =
        ExitCode.ok := by
  refine ⟨rfl, rfl, by decide⟩

/-- C4 amended: besides the documented facts-refresh degradation, the
node-active command has a second silent path: when keeper_update_state
fails after a successful nodeActive exchange, the failure is logged but
the command still prints the assigned state and completes with the
success exit class, leaving the durable state unchanged. -/
theorem node_active_update_failure_swallowed (env : Env) (dk : KeeperState)
    (a : MonitorAssignedState) (hcfg : env.configReadOk = true)
    (hki : env.keeperInitOk = true) (hna : env.nodeActiveReply = some a)
    (hup : env.updateStateOk = false) :
    (keeper_cli_monitor_node_active env dk).exit = ExitCode.ok ∧
      (keeper_cli_monitor_node_active env dk).disk = dk ∧
      (keeper_cli_monitor_node_active env dk).printedAssigned = some a := by
  simp [keeper_cli_monitor_node_active, hcfg, hki, hna, hup]

/-- C4 amended witness: the concrete update-failure invocation. -/
theorem node_active_update_failure_swallowed_witness :
    (keeper_cli_monitor_node_active envUpdateFail diskSingle).exit =
        ExitCode.ok ∧
      (keeper_cli_monitor_node_active envUpdateFail diskSingle).disk =
        diskSingle ∧
      (keeper_cli_monitor_node_active envUpdateFail diskSingle).printedAssigned =
        some ⟨1, 0, NodeState.SECONDARY_STATE⟩ :=
  node_active_update_failure_swallowed envUpdateFail diskSingle
    ⟨1, 0, NodeState.SECONDARY_STATE⟩ rfl rfl rfl rfl

/-- C5 counterexample: in the fsm state command a probe failure is fatal -
the command aborts with the bad-state class instead of degrading and
proceeding, contradicting the claim's "for every invocation". -/
theorem fsm_state_probe_failure_fatal_cex :
    envProbeFail.probe = none ∧
      (keeper_cli_fsm_state envProbeFail diskSingle).exit =
        ExitCode.badState ∧
      (keeper_cli_fsm_state envProbeFail diskSingle).exit ≠ ExitCode.ok := by
  refine ⟨rfl, by decide, by decide⟩

/-- C5 amended: the degradation to conservative defaults on probe failure
holds in the node-active command, which still contacts the monitor
reporting the default facts; but the fsm state (and fsm init) commands
treat the same probe failure as fatal and abort with the bad-state class. -/
theorem probe_failure_degrades_in_node_active_only (env : Env)
    (dk : KeeperState) (hprobe : env.probe = none)
    (hcfg : env.configReadOk = true) (hki : env.keeperInitOk = true) :
    Event.nodeActiveCall dk.current_role defaultPostgresFacts ∈
        (keeper_cli_monitor_node_active env dk).events ∧
      (keeper_cli_fsm_state env dk).exit = ExitCode.badState := by
  constructor
  · cases hna : env.nodeActiveReply with
    | none =>
      simp [keeper_cli_monitor_node_active, hcfg, hki, hna, hprobe,
        refreshFacts]
    | some a =>
      cases hup : env.updateStateOk <;>
        simp [keeper_cli_monitor_node_active, hcfg, hki, hna, hprobe,
          refreshFacts, hup]
  · simp [keeper_cli_fsm_state, hcfg, hki, hprobe]

/-- C5 amended witness: the concrete probe-failure invocation. -/
theorem probe_failure_degrades_in_node_active_only_witness :
    Event.nodeActiveCall diskSingle.current_role defaultPostgresFacts ∈
        (keeper_cli_monitor_node_active envProbeFail diskSingle).events ∧
      (keeper_cli_fsm_state envProbeFail diskSingle).exit =
        ExitCode.badState :=
  probe_failure_degrades_in_node_active_only envProbeFail diskSingle
    rfl rfl rfl

/-- C6 counterexample: a monitor-communication failure does not always
exit with the monitor-failure class: the get-primary command exits with
the monitor class but the node-active command exits with the pgsql class
on the very same monitor failure. -/
theorem monitor_failure_exit_code_inconsistent_cex :
    (keeper_cli_monitor_get_primary_node envMonitorFail).exit =
        ExitCode.monitor ∧
      (keeper_cli_monitor_node_active envMonitorFail diskSingle).exit =
        ExitCode.pgsql ∧
      ExitCode.pgsql ≠ ExitCode.monitor := by
  refine ⟨by decide, by decide, by decide⟩

/-- C6 amended: fatal errors do exit with distinct classes, but the
monitor-failure mapping is not consistent across commands: the
get-primary command exits with the monitor class while the node-active
command exits with the pgsql class when the monitor call fails. -/
theorem monitor_failure_exit_codes_amended (env : Env) (dk : KeeperState)
    (hcfg : env.configReadOk = true) (hmi : env.monitorInitOk = true)
    (hki : env.keeperInitOk = true) (hgp : env.getPrimaryReply = none)
    (hna : env.nodeActiveReply = none) :
    (keeper_cli_monitor_get_primary_node env).exit = ExitCode.monitor ∧
      (keeper_cli_monitor_node_active env dk).exit = ExitCode.pgsql := by
  constructor
  · simp [keeper_cli_monitor_get_primary_node, hcfg, hmi, hgp]
  · simp [keeper_cli_monitor_node_active, hcfg, hki, hna]

/-- C6 amended witness: the concrete monitor-failure invocations. -/
theorem monitor_failure_exit_codes_amended_witness :
    (keeper_cli_monitor_get_primary_node envMonitorFail).exit =
        ExitCode.monitor ∧
      (keeper_cli_monitor_node_active envMonitorFail diskSingle).exit =
        ExitCode.pgsql :=
  monitor_failure_exit_codes_amended envMonitorFail diskSingle
    rfl rfl rfl rfl rfl

/-- C7 counterexample: the single-step command does require the monitor:
with the monitor disabled in the configuration it exits with the
bad-config class and performs no FSM step at all, contradicting the claim
that it steps regardless of monitor contact. -/
theorem fsm_step_requires_monitor_cex :
    (keeper_cli_fsm_step envMonitorDisabled diskSingle).exit =
        ExitCode.badConfig ∧
      countFsmSteps
          (keeper_cli_fsm_step envMonitorDisabled diskSingle).events = 0 ∧
      ExitCode.badConfig ≠ ExitCode.ok := by
  refine ⟨by decide, by decide, by decide⟩

/-- C7 amended: the single-step command refuses to run when the monitor
is disabled (bad-config exit, no step executed); in every invocation it
performs at most one FSM transition step. -/
theorem fsm_step_monitor_required (env : Env) (dk : KeeperState) :
    (env.configReadOk = true → env.monitorDisabled = true →
      (keeper_cli_fsm_step env dk).exit = ExitCode.badConfig ∧
        countFsmSteps (keeper_cli_fsm_step env dk).events = 0) ∧
      countFsmSteps (keeper_cli_fsm_step env dk).events ≤ 1 := by
  obtain ⟨cr, md, mi, ki, cf, pr, na, rr, gp, us, ss, jo, ps⟩ := env
  constructor
  · intro h1 h2
    simp only at h1 h2
    subst h1; subst h2
    simp [keeper_cli_fsm_step, countFsmSteps]
  · cases cr with
    | false => simp [keeper_cli_fsm_step, countFsmSteps]
    | true =>
      cases md with
      | true => simp [keeper_cli_fsm_step, countFsmSteps]
      | false =>
        cases ki with
        | false => simp [keeper_cli_fsm_step, countFsmSteps]
        | true =>
          cases na with
          | none =>
            simp [keeper_cli_fsm_step, keeper_fsm_step_model,
              countFsmSteps, lastWrite]
          | some a =>
            by_cases heq : dk.current_role = a.state
            · simp [keeper_cli_fsm_step, keeper_fsm_step_model, heq,
                countFsmSteps]
            · cases hl : lookupEdge dk.current_role a.state with
              | none =>
                simp [keeper_cli_fsm_step, keeper_fsm_step_model, heq, hl,
                  countFsmSteps, lastWrite]
              | some nx =>
                simp [keeper_cli_fsm_step, keeper_fsm_step_model, heq, hl,
                  countFsmSteps]

/-- C7 amended witness: with the monitor disabled the command exits with
the bad-config class and no step; the step count is bounded by one. -/
theorem fsm_step_monitor_required_witness :
    ((envMonitorDisabled.configReadOk = true →
        envMonitorDisabled.monitorDisabled = true →
        (keeper_cli_fsm_step envMonitorDisabled diskSingle).exit =
            ExitCode.badConfig ∧
          countFsmSteps
            (keeper_cli_fsm_step envMonitorDisabled diskSingle).events =
            0) ∧
      countFsmSteps
          (keeper_cli_fsm_step envMonitorDisabled diskSingle).events ≤ 1) :=
  fsm_step_monitor_required envMonitorDisabled diskSingle

/-- C8: registering with an initial role of NO_STATE - which is what any
unknown role string parses to - is rejected with the bad-arguments exit
before the monitor is contacted and before any durable state is created
(empty event trace, durable state unchanged); and the assign operation,
whatever its arguments, never leaves NO_STATE as the keeper's durable
assigned (or current) role when the keeper starts from an initialized
state. -/
theorem no_state_rejected_and_never_assigned (env : Env)
    (args : List String) (badStr : String) (disk : Option KeeperState)
    (dk : KeeperState)
    (hparse : NodeStateFromString badStr = NodeState.NO_STATE)
    (hdk : rolesValid dk) :
    ((keeper_cli_monitor_register_node env [badStr] disk).exit =
        ExitCode.badArgs ∧
      (keeper_cli_monitor_register_node env [badStr] disk).disk = disk ∧
      (keeper_cli_monitor_register_node env [badStr] disk).events = []) ∧
      rolesValid (keeper_cli_fsm_assign env args dk).disk := by
  constructor
  · simp [keeper_cli_monitor_register_node, hparse]
  · by_cases hcfg : env.configReadOk
    · rcases args with _ | ⟨g, _ | ⟨b, _ | ⟨c, _ | ⟨d, rest⟩⟩⟩⟩
      · simpa [keeper_cli_fsm_assign, hcfg] using hdk
      · simpa [keeper_cli_fsm_assign, hcfg] using
          assign_body_roles_valid env (NodeStateFromString g) dk hdk
      · simpa [keeper_cli_fsm_assign, hcfg] using hdk
      · by_cases hp : (c.toInt?).isNone
        · simpa [keeper_cli_fsm_assign, hcfg, hp] using hdk
        · simpa [keeper_cli_fsm_assign, hcfg, hp] using
            assign_body_roles_valid env (NodeStateFromString g) dk hdk
      · simpa [keeper_cli_fsm_assign, hcfg] using hdk
    · simpa [keeper_cli_fsm_assign, hcfg] using hdk

/-- C8 witness: registering the unknown string BOGUS_STATE is rejected
with bad-arguments and no side effect, and assigning secondary to a
single node leaves valid roles. -/
theorem no_state_rejected_and_never_assigned_witness :
    ((keeper_cli_monitor_register_node envAllOk ["BOGUS_STATE"] none).exit =
        ExitCode.badArgs ∧
      (keeper_cli_monitor_register_node envAllOk ["BOGUS_STATE"] none).disk =
        none ∧
      (keeper_cli_monitor_register_node envAllOk ["BOGUS_STATE"] none).events =
        []) ∧
      rolesValid (keeper_cli_fsm_assign envAllOk ["secondary"]
        diskSingle).disk :=
  no_state_rejected_and_never_assigned envAllOk ["secondary"] "BOGUS_STATE"
    none diskSingle (by decide) ⟨by decide, by decide⟩

/-- C9: when the state-initialization command succeeds, the record it
prints is the zero-initialized local keeperState variable - all fields
unset - and not the populated keeper state the same invocation wrote to
disk; whenever the populated state differs from the zero record, the
printed output differs from the persisted record. -/
theorem fsm_init_prints_zero_record (env : Env) (disk : Option KeeperState)
    (h : (keeper_cli_fsm_init env disk).exit = ExitCode.ok) :
    (keeper_cli_fsm_init env disk).printedState = some zeroKeeperState ∧
      (keeper_cli_fsm_init env disk).disk = some env.populatedState ∧
      (env.populatedState ≠ zeroKeeperState →
        (keeper_cli_fsm_init env disk).printedState ≠
          some env.populatedState) := by
  obtain ⟨cr, md, mi, ki, cf, pr, na, rr, gp, us, ss, jo, ps⟩ := env
  cases cr <;> cases ki <;> cases cf <;> cases ss <;> cases pr <;>
    cases disk <;> simp_all [keeper_cli_fsm_init]
  exact fun hne heq => hne heq.symm

/-- C9 witness: a concrete successful initialization prints the zero
record while persisting the populated state. -/
theorem fsm_init_prints_zero_record_witness :
    (keeper_cli_fsm_init envAllOk none).printedState =
        some zeroKeeperState ∧
      (keeper_cli_fsm_init envAllOk none).disk =
        some envAllOk.populatedState ∧
      (envAllOk.populatedState ≠ zeroKeeperState →
        (keeper_cli_fsm_init envAllOk none).printedState ≠
          some envAllOk.populatedState) :=
  fsm_init_prints_zero_record envAllOk none (by decide)

/-- C10: when the single-step command succeeds, the new role it prints is
the keeper's assigned role (the goal), and whenever the step made only
partial progress - the achieved current role differs from the assigned
role - the printed transition still names the assigned goal, never the
role actually achieved. -/
theorem fsm_step_prints_assigned_goal (env : Env) (dk : KeeperState)
    (h : (keeper_cli_fsm_step env dk).exit = ExitCode.ok) :
    (keeper_cli_fsm_step env dk).printedTransition =
      some (NodeStateToString dk.current_role,
        NodeStateToString
          (keeper_cli_fsm_step env dk).disk.assigned_role) ∧
      ((keeper_cli_fsm_step env dk).disk.current_role ≠
          (keeper_cli_fsm_step env dk).disk.assigned_role →
        (keeper_cli_fsm_step env dk).printedTransition ≠
          some (NodeStateToString dk.current_role,
            NodeStateToString
              (keeper_cli_fsm_step env dk).disk.current_role)) := by
  obtain ⟨cr, md, mi, ki, cf, pr, na, rr, gp, us, ss, jo, ps⟩ := env
  cases cr with
  | false => simp [keeper_cli_fsm_step] at h
  | true =>
    cases md with
    | true => simp [keeper_cli_fsm_step] at h
    | false =>
      cases ki with
      | false => simp [keeper_cli_fsm_step] at h
      | true =>
        cases na with
        | none => simp [keeper_cli_fsm_step, keeper_fsm_step_model] at h
        | some a =>
          by_cases heq : dk.current_role = a.state
          · constructor
            · simp [keeper_cli_fsm_step, keeper_fsm_step_model, heq]
            · intro hne
              exact absurd
                (by simp [keeper_cli_fsm_step, keeper_fsm_step_model, heq])
                hne
          · cases hl : lookupEdge dk.current_role a.state with
            | none =>
              simp [keeper_cli_fsm_step, keeper_fsm_step_model, heq, hl]
                at h
            | some nx =>
              have hdisk : (keeper_cli_fsm_step
                  ⟨true, false, mi, true, cf, pr, some a, rr, gp, us, ss,
                   jo, ps⟩ dk).disk =
                  ⟨nx, a.state, a.nodeId, a.groupId⟩ := by
                simp [keeper_cli_fsm_step, keeper_fsm_step_model, heq, hl]
              have hpr : (keeper_cli_fsm_step
                  ⟨true, false, mi, true, cf, pr, some a, rr, gp, us, ss,
                   jo, ps⟩ dk).printedTransition =
                  some (NodeStateToString dk.current_role,
                    NodeStateToString a.state) := by
                simp [keeper_cli_fsm_step, keeper_fsm_step_model, heq, hl]
              rw [hdisk, hpr]
              constructor
              · rfl
              · intro hne hcontra
                simp only [Option.some.injEq, Prod.mk.injEq, true_and]
                  at hcontra
                exact hne ((nodeStateToString_injective _ _ hcontra).symm)

/-- C10 witness: a single node waiting for standby is assigned SECONDARY
by the monitor; one step only reaches CATCHINGUP, yet the printed
transition names secondary, the assigned goal. -/
theorem fsm_step_prints_assigned_goal_witness :
    (keeper_cli_fsm_step envAllOk diskWaitStandby).printedTransition =
      some (NodeStateToString diskWaitStandby.current_role,
        NodeStateToString
          (keeper_cli_fsm_step envAllOk diskWaitStandby).disk.assigned_role) ∧
      ((keeper_cli_fsm_step envAllOk diskWaitStandby).disk.current_role ≠
          (keeper_cli_fsm_step envAllOk diskWaitStandby).disk.assigned_role →
        (keeper_cli_fsm_step envAllOk diskWaitStandby).printedTransition ≠
          some (NodeStateToString diskWaitStandby.current_role,
            NodeStateToString
              (keeper_cli_fsm_step envAllOk
                diskWaitStandby).disk.current_role)) :=
  fsm_step_prints_assigned_goal envAllOk diskWaitStandby (by decide)
